import Mathlib

/-
Verification of the offline-resilience core of the StaySense client
(src/app.js and the service worker), as described in spec.md.

The embedding models:
  - the signal outbound queue and its flush loop (app.js 701-768),
  - the health monitor entry points and the page call sites that trigger
    a queue flush (app.js 78-127, 157-182),
  - the score cache with its quantized coordinate key (app.js 603-653),
  - the service worker routing and its two caching strategies
    (service worker, fetch listener and helpers).

Network and storage effects are made explicit: each modelled function takes
the relevant request outcomes as parameters and returns the new state plus
the observable result, exactly following the control flow of the source.
-/

/- ===== Signal queue (app.js 688-768) ===== -/

/-- A community signal as assembled by buildSignal (app.js 688-699): spot id,
signal type, the persisted device token, and a client-side ISO timestamp. -/
structure Signal where
  spot_id : String
  signal_type : String
  device_token : String
  timestamp : String
deriving DecidableEq

/-- Result of one submitSignal call (app.js 729-743): the POST either succeeds
(2xx, the function returns), or the non-2xx body carries error cooldown_active
and a cooldown error with next_allowed_at is thrown, or any other error is
thrown (non-2xx without the cooldown body, or fetch itself throwing). -/
inductive SubmitResult where
  | success : SubmitResult
  | cooldown (nextAllowedAt : String) : SubmitResult
  | failure : SubmitResult
deriving DecidableEq

/-- True exactly when submitSignal resolved without throwing. -/
def SubmitResult.isSuccess (r : SubmitResult) : Bool :=
  match r with
  | SubmitResult.success => true
  | _ => false

/-- The loop of flushSignalQueue (app.js 753-759): it walks the pending
snapshot in order, awaiting submitSignal for each entry; the catch block
appends every signal whose submission threw to keep, without inspecting the
error, so cooldown rejections are kept like any other failure. The outcome
parameter gives the result submitSignal produces for each signal during this
flush. The first accumulator records the signals submitted so far, in
submission order; the second accumulates keep. -/
def flushLoop (outcome : Signal → SubmitResult) (pending : List Signal)
    (attempts keep : List Signal) : List Signal × List Signal :=
  match pending with
  | [] => (attempts, keep)
  | s :: rest =>
      flushLoop outcome rest (attempts ++ [s])
        (if (outcome s).isSuccess then keep else keep ++ [s])

/-- flushSignalQueue (app.js 745-768): returns early on an empty queue,
otherwise snapshots the queue, runs the loop, and assigns keep back to the
queue. The value returned is the pair (signals submitted in order, the new
value of signalQueue after the flush). -/
def flushSignalQueue (outcome : Signal → SubmitResult) (queue : List Signal) :
    List Signal × List Signal :=
  if queue.isEmpty then ([], queue)
  else flushLoop outcome queue [] []

theorem flushLoop_eq (outcome : Signal → SubmitResult) (pending : List Signal)
    (attempts keep : List Signal) :
    flushLoop outcome pending attempts keep =
      (attempts ++ pending,
        keep ++ pending.filter (fun s => !(outcome s).isSuccess)) := by
  induction pending generalizing attempts keep with
  | nil => simp [flushLoop]
  | cons s rest ih =>
      rw [flushLoop, ih]
      cases h : (outcome s).isSuccess <;>
        simp [h, List.filter_cons]

theorem flushSignalQueue_attempts (outcome : Signal → SubmitResult)
    (queue : List Signal) : (flushSignalQueue outcome queue).1 = queue := by
  rw [flushSignalQueue]
  cases queue with
  | nil => simp
  | cons s rest => rw [if_neg (by simp), flushLoop_eq]; simp

theorem flushSignalQueue_queue (outcome : Signal → SubmitResult)
    (queue : List Signal) :
    (flushSignalQueue outcome queue).2 =
      queue.filter (fun s => !(outcome s).isSuccess) := by
  rw [flushSignalQueue]
  cases queue with
  | nil => simp
  | cons s rest => rw [if_neg (by simp), flushLoop_eq]; simp

/-- Concrete signal used for the cooldown scenario. -/
def sigNoise : Signal :=
  ⟨"spot-1", "noise", "device-1", "2026-02-15T20:15:00Z"⟩

/-- Submission outcome where the server rejects every attempt with body error
cooldown_active. -/
def cooldownOutcome : Signal → SubmitResult :=
  fun _ => SubmitResult.cooldown "2026-02-16T20:15:00Z"

/-- C1 counterexample: with queue [sigNoise] and the server answering every
submission with a cooldown rejection, the flush leaves the signal in the
queue (it is not dropped), and the next flush submits it again (it is
resubmitted) - the catch block of flushSignalQueue keeps every failed entry
without inspecting the error. -/
theorem C1_counterexample_cooldown_kept_and_resubmitted :
    (flushSignalQueue cooldownOutcome [sigNoise]).2 = [sigNoise] ∧
      sigNoise ∈
        (flushSignalQueue cooldownOutcome
          ((flushSignalQueue cooldownOutcome [sigNoise]).2)).1 := by
  decide

/-- C1 (amended): during flushSignalQueue, every queued signal whose
submission does not succeed - cooldown rejections included - is kept in the
queue for a later retry, in order; entries leave the queue only on a
successful submission. -/
theorem C1_flush_keeps_every_failure (outcome : Signal → SubmitResult)
    (queue : List Signal) :
    (flushSignalQueue outcome queue).2 =
      queue.filter (fun s => !(outcome s).isSuccess) :=
  flushSignalQueue_queue outcome queue

/-- Concrete queue [A, B, C] for the FIFO scenario. -/
def sigA : Signal := ⟨"spot-1", "calm", "device-1", "2026-02-15T20:00:00Z"⟩

/-- Second entry of the FIFO scenario queue. -/
def sigB : Signal := ⟨"spot-2", "noise", "device-1", "2026-02-15T20:05:00Z"⟩

/-- Third entry of the FIFO scenario queue. -/
def sigC : Signal := ⟨"spot-3", "knock", "device-1", "2026-02-15T20:10:00Z"⟩

/-- Outcome where submitting sigB fails transiently and everything else
succeeds. -/
def failOnlyB : Signal → SubmitResult :=
  fun s => if s = sigB then SubmitResult.failure else SubmitResult.success

/-- C6: flushSignalQueue submits the queued signals strictly in insertion
order; for queue [A, B, C] with B failing transiently, the queue after the
flush is exactly [B]; and in general the queue left by a flush - and by any
second flush after it - is an order-preserving subsequence of the original
queue, so failed items are never reordered relative to each other. -/
theorem C6_flush_fifo_and_failure_order :
    (flushSignalQueue failOnlyB [sigA, sigB, sigC]).1 = [sigA, sigB, sigC] ∧
      (flushSignalQueue failOnlyB [sigA, sigB, sigC]).2 = [sigB] ∧
      (∀ (outcome : Signal → SubmitResult) (queue : List Signal),
        ((flushSignalQueue outcome queue).2).Sublist queue) ∧
      (∀ (outcome1 outcome2 : Signal → SubmitResult) (queue : List Signal),
        ((flushSignalQueue outcome2
            ((flushSignalQueue outcome1 queue).2)).2).Sublist queue) := by
  refine ⟨by decide, by decide, ?_, ?_⟩
  · intro outcome queue
    rw [flushSignalQueue_queue]
    exact List.filter_sublist queue
  · intro outcome1 outcome2 queue
    rw [flushSignalQueue_queue, flushSignalQueue_queue]
    exact ((List.filter_sublist _).trans (List.filter_sublist queue))

/- ===== Queue state and the flush commit (app.js 701-727, 745-768) ===== -/

/-- The page state relevant to the signal queue: the module variable
signalQueue (app.js 64) and the JSON list persisted under
staysense.signal_queue.v1. -/
structure QueueState where
  signalQueue : List Signal
  storedQueue : List Signal
deriving DecidableEq

/-- The enqueue step of sendSignal on a non-cooldown failure
(app.js 722-723): push the signal onto signalQueue, then persist the queue. -/
def enqueueSignal (s : Signal) (st : QueueState) : QueueState :=
  let q := st.signalQueue ++ [s]
  ⟨q, q⟩

/-- The snapshot taken at the start of flushSignalQueue (app.js 750):
pending is a copy of signalQueue at that moment. -/
def flushSnapshot (st : QueueState) : List Signal :=
  st.signalQueue

/-- The commit at the end of flushSignalQueue (app.js 761-762): signalQueue
is assigned keep and then persisted. keep is computed from the snapshot
alone, so the assignment overwrites whatever signalQueue holds once the
awaited submissions are done - the current state passed here is discarded. -/
def flushCommit (outcome : Signal → SubmitResult) (snapshot : List Signal)
    (_current : QueueState) : QueueState :=
  let keep := (flushSignalQueue outcome snapshot).2
  ⟨keep, keep⟩

/-- Submission outcome where every attempt succeeds. -/
def successOutcome : Signal → SubmitResult := fun _ => SubmitResult.success

/-- Signal already queued before the flush of the C8 scenario starts. -/
def sigOld : Signal := ⟨"spot-1", "calm", "device-1", "2026-02-15T19:00:00Z"⟩

/-- Signal enqueued by sendSignal while the C8 flush is awaiting. -/
def sigNew : Signal := ⟨"spot-2", "noise", "device-1", "2026-02-15T19:00:30Z"⟩

/-- C8: evaluation of the flush commit at the failing input. The flush
snapshots the queue [sigOld]; while it awaits, sendSignal enqueues sigNew
(into memory and storage); the flush then commits keep computed from the
snapshot, which erases sigNew from the in-memory queue and from storage,
although sigNew was present when the commit ran. -/
theorem C8_flush_commit_discards_concurrent_enqueue :
    (let st0 : QueueState := ⟨[sigOld], [sigOld]⟩
     let snap := flushSnapshot st0
     let st1 := enqueueSignal sigNew st0
     let st2 := flushCommit successOutcome snap st1
     sigNew ∈ st1.signalQueue ∧ sigNew ∈ st1.storedQueue ∧
       st2.signalQueue = [] ∧ sigNew ∉ st2.signalQueue ∧
       sigNew ∉ st2.storedQueue) := by
  decide

/- ===== Health monitor and flush triggers (app.js 78-196) ===== -/

/-- The health block of the /health response payload (payload.health), as
read by renderDataStatusFromHealth (app.js 184-192). The age fields are JSON
numbers; integral values suffice for every property below. -/
structure HealthInfo where
  has_data : Bool
  freshest_age_hours : Int
  stalest_age_hours : Int
  stale_sources : List String
deriving DecidableEq

/-- Outcome of the probe fetch in checkApiHealth (app.js 163-182): a 2xx
response whose JSON may or may not carry a health block, a non-2xx response
(the code throws health_failed), or fetch itself throwing. -/
inductive ProbeResult where
  | ok (health : Option HealthInfo)
  | httpError
  | networkError
deriving DecidableEq

/-- A page-level call site modelled by name. Calls that the claims do not
touch are kept as opaque markers so the traces keep the source order. -/
inductive PageAction where
  | flushQueue
  | checkHealth
  | renderQueueStatus
  | renderNetworkStatus
  | bindUiHandlers
  | setupMap
  | updateMap
  | scheduleHealthTimer (intervalMs : Nat)
  | loadAdminStatus
deriving DecidableEq

/-- The module-level state written by checkApiHealth (app.js 66-68) plus the
data-status line it renders. -/
structure HealthMonitorState where
  apiOnline : Bool
  lastHealthCheckAt : Option String
  lastHealthLatencyMs : Option Nat
  dataStatusText : String
deriving DecidableEq

/-- renderDataStatusFromHealth (app.js 184-192): no health block or
has_data false renders the no-metadata line; otherwise the freshest and
stalest ages are shown, with the stale source names appended when the
stale_sources list is non-empty. -/
def renderDataStatusFromHealth (health : Option HealthInfo) : String :=
  match health with
  | none => "Datenstand: keine Quellenmetadaten"
  | some h =>
      if !h.has_data then "Datenstand: keine Quellenmetadaten"
      else
        "Datenstand: freshest " ++ toString h.freshest_age_hours ++
          "h, stalest " ++ toString h.stalest_age_hours ++ "h" ++
          (if h.stale_sources.isEmpty then ""
           else ", stale: " ++ String.intercalate ", " h.stale_sources)

/-- checkApiHealth (app.js 163-182): on a 2xx probe it records the online
state, the measured latency and the check time and renders the data status
from the payload; on any failure it records the offline state and the
offline data-status line. Both paths end with renderNetworkStatus. The
returned list holds the page calls the function makes besides its own field
assignments - there is no flushSignalQueue call on either path. -/
def checkApiHealth (r : ProbeResult) (latencyMs : Nat) (now : String)
    (st : HealthMonitorState) : HealthMonitorState × List PageAction :=
  match r with
  | ProbeResult.ok health =>
      ({ st with
          apiOnline := true
          lastHealthLatencyMs := some latencyMs
          lastHealthCheckAt := some now
          dataStatusText := renderDataStatusFromHealth health },
        [PageAction.renderNetworkStatus])
  | _ =>
      ({ st with
          apiOnline := false
          lastHealthLatencyMs := none
          lastHealthCheckAt := some now
          dataStatusText := "Datenstand: aktuell nicht abrufbar (API offline)" },
        [PageAction.renderNetworkStatus])

/-- onNetworkHint (app.js 157-161), registered for both the online and the
offline browser events (app.js 81-82): it flushes the queue and then probes. -/
def onNetworkHintActions : List PageAction :=
  [PageAction.flushQueue, PageAction.checkHealth]

/-- The calls made by the startup function of app.js (lines 78-127),
restricted to the modelled page operations, in source order: the listener
registrations are summarised as one marker, then map setup, the startup
flush, the queue-status render, the first probe, the 30s probe timer and the
admin bootstrap load. -/
def startupActions : List PageAction :=
  [PageAction.renderNetworkStatus, PageAction.bindUiHandlers,
   PageAction.setupMap, PageAction.updateMap, PageAction.flushQueue,
   PageAction.renderQueueStatus, PageAction.checkHealth,
   PageAction.scheduleHealthTimer 30000, PageAction.loadAdminStatus]

/-- Concrete health payload for the C2 counterexample. -/
def healthSample : HealthInfo := ⟨true, 2, 7, []⟩

/-- Monitor state before the C2 counterexample probe. -/
def monitorState0 : HealthMonitorState := ⟨false, none, none, ""⟩

/-- C2 counterexample: a successful health probe (2xx with a health block)
does not trigger a queue flush - checkApiHealth makes no flushSignalQueue
call on its success path. -/
theorem C2_counterexample_successful_probe_no_flush :
    PageAction.flushQueue ∉
      (checkApiHealth (ProbeResult.ok (some healthSample)) 12
        "2026-02-15T20:00:00Z" monitorState0).2 := by
  decide

/-- C2 (amended): checkApiHealth never calls flushSignalQueue - not even
after a successful probe; the flush call sites are startup and the
online/offline hint handler, which flushes on both hint directions. -/
theorem C2_flush_trigger_sites (r : ProbeResult) (latencyMs : Nat)
    (now : String) (st : HealthMonitorState) :
    PageAction.flushQueue ∉ (checkApiHealth r latencyMs now st).2 ∧
      PageAction.flushQueue ∈ onNetworkHintActions ∧
      PageAction.flushQueue ∈ startupActions := by
  refine ⟨?_, by decide, by decide⟩
  cases r <;> simp [checkApiHealth]

/- ===== Service worker cache router (service worker file) ===== -/

/-- The pieces of a Response the model needs: HTTP status, status text and
body. The synthetic offline response of the markup route is
new Response("Offline", status 503, statusText "Offline"). -/
structure SWResponse where
  status : Nat
  statusText : String
  body : String
deriving DecidableEq

/-- The synthetic offline response built in the markup fallback. -/
def offlineResponse : SWResponse := ⟨503, "Offline", "Offline"⟩

/-- Outcome of fetch(request) inside the worker: a resolved response of any
HTTP status, or the promise rejecting (network-level failure). -/
inductive NetResult where
  | ok (response : SWResponse)
  | networkError
deriving DecidableEq

/-- Outcome of a strategy promise handed to respondWith: it resolves with a
response or it rejects. -/
inductive FetchOutcome where
  | response (r : SWResponse)
  | rejected
deriving DecidableEq

/-- JavaScript String.prototype.startsWith, on the character sequences. -/
def jsStartsWith (s pat : String) : Bool := pat.data.isPrefixOf s.data

/-- JavaScript String.prototype.endsWith, on the character sequences. -/
def jsEndsWith (s pat : String) : Bool := pat.data.isSuffixOf s.data

/-- Route test for map tiles: url.pathname.startsWith("/api/map/tile/"). -/
def isMapTileRequest (p : String) : Bool := jsStartsWith p "/api/map/tile/"

/-- Route test for static assets: the vendor path or a .css/.js/.svg name. -/
def isStaticAssetRequest (p : String) : Bool :=
  jsStartsWith p "/vendor/" || jsEndsWith p ".css" || jsEndsWith p ".js" ||
    jsEndsWith p ".svg"

/-- Route test for the health and score API routes. -/
def isScoreHealthRequest (p : String) : Bool :=
  p == "/api/health" || jsStartsWith p "/api/spot/score"

/-- Route test for markup: the root document or any .html page. -/
def isMarkupRequest (p : String) : Bool := p == "/" || jsEndsWith p ".html"

/-- cacheFirst (worker): return the cached response when present; otherwise
fetch, store a clone of whatever resolved in the runtime cache and return
it; a fetch rejection propagates. The second component is the response put
into the runtime cache, when any. -/
def cacheFirst (cached : Option SWResponse) (net : NetResult) :
    FetchOutcome × Option SWResponse :=
  match cached with
  | some c => (FetchOutcome.response c, none)
  | none =>
      match net with
      | NetResult.ok r => (FetchOutcome.response r, some r)
      | NetResult.networkError => (FetchOutcome.rejected, none)

/-- networkFirst (worker): store and return whatever fetch resolves with
(any HTTP status); only when fetch rejects fall back to the cached response
for the request, and throw offline when there is none. -/
def networkFirst (net : NetResult) (cached : Option SWResponse) :
    FetchOutcome × Option SWResponse :=
  match net with
  | NetResult.ok r => (FetchOutcome.response r, some r)
  | NetResult.networkError =>
      match cached with
      | some c => (FetchOutcome.response c, none)
      | none => (FetchOutcome.rejected, none)

/-- A request as the fetch listener sees it: method and url.pathname. -/
structure SWRequest where
  method : String
  pathname : String
deriving DecidableEq

/-- The fetch listener of the worker: non-GET requests are not intercepted
(none); map tiles and static assets go cache-first; the health and score
API routes go network-first; the root document and .html pages go
network-first with a fallback to the cached shell ("/index.html") or the
synthetic offline response; every other request is not intercepted.
cacheMatch gives the result of caches.match, keyed by pathname. The result
pairs the outcome handed to respondWith with the runtime-cache write, if
any. -/
def fetchHandler (req : SWRequest) (net : NetResult)
    (cacheMatch : String → Option SWResponse) :
    Option (FetchOutcome × Option SWResponse) :=
  if req.method != "GET" then none
  else if isMapTileRequest req.pathname then
    some (cacheFirst (cacheMatch req.pathname) net)
  else if isStaticAssetRequest req.pathname then
    some (cacheFirst (cacheMatch req.pathname) net)
  else if isScoreHealthRequest req.pathname then
    some (networkFirst net (cacheMatch req.pathname))
  else if isMarkupRequest req.pathname then
    some
      (match networkFirst net (cacheMatch req.pathname) with
       | (FetchOutcome.response r, put) => (FetchOutcome.response r, put)
       | (FetchOutcome.rejected, _) =>
           match cacheMatch "/index.html" with
           | some fallback => (FetchOutcome.response fallback, none)
           | none => (FetchOutcome.response offlineResponse, none))
  else none

/-- C3 counterexample: an intercepted GET to /api/health with the network
down and nothing cached makes networkFirst throw offline, so the promise
given to respondWith rejects - the handler does not resolve to a response
for every intercepted GET. -/
theorem C3_counterexample_health_request_rejects :
    fetchHandler ⟨"GET", "/api/health"⟩ NetResult.networkError (fun _ => none)
      = some (FetchOutcome.rejected, none) := by
  decide

/-- C3 (amended): for every GET the worker intercepts, the handler resolves
to some response - cached, network, shell fallback or the synthetic offline
response - except on the tile, static-asset and health/score routes when the
network fetch rejects and the cache has no entry for the request; exactly
there the respondWith promise rejects. The markup route always resolves. -/
theorem C3_fetchHandler_rejection_characterization
    (req : SWRequest) (net : NetResult)
    (cacheMatch : String → Option SWResponse)
    (out : FetchOutcome) (put : Option SWResponse)
    (h : fetchHandler req net cacheMatch = some (out, put)) :
    out = FetchOutcome.rejected ↔
      (net = NetResult.networkError ∧ cacheMatch req.pathname = none ∧
        (isMapTileRequest req.pathname || isStaticAssetRequest req.pathname ||
          isScoreHealthRequest req.pathname) = true) := by
  unfold fetchHandler at h
  split at h
  · exact absurd h (by simp)
  next hGet =>
  split at h
  next hTile =>
    rw [Option.some_inj] at h
    cases hc : cacheMatch req.pathname with
    | some c =>
        simp only [cacheFirst, hc] at h
        injection h with h1 h2
        subst h1
        simp [hc]
    | none =>
        cases net with
        | ok r =>
            simp only [cacheFirst, hc] at h
            injection h with h1 h2
            subst h1
            simp
        | networkError =>
            simp only [cacheFirst, hc] at h
            injection h with h1 h2
            subst h1
            simp [hc, hTile]
  next hTile =>
  split at h
  next hStatic =>
    rw [Option.some_inj] at h
    cases hc : cacheMatch req.pathname with
    | some c =>
        simp only [cacheFirst, hc] at h
        injection h with h1 h2
        subst h1
        simp [hc]
    | none =>
        cases net with
        | ok r =>
            simp only [cacheFirst, hc] at h
            injection h with h1 h2
            subst h1
            simp
        | networkError =>
            simp only [cacheFirst, hc] at h
            injection h with h1 h2
            subst h1
            simp [hc, hStatic]
  next hStatic =>
  split at h
  next hApi =>
    rw [Option.some_inj] at h
    cases net with
    | ok r =>
        simp only [networkFirst] at h
        injection h with h1 h2
        subst h1
        simp
    | networkError =>
        cases hc : cacheMatch req.pathname with
        | some c =>
            simp only [networkFirst, hc] at h
            injection h with h1 h2
            subst h1
            simp [hc]
        | none =>
            simp only [networkFirst, hc] at h
            injection h with h1 h2
            subst h1
            simp [hc, hApi]
  next hApi =>
  split at h
  next hMarkup =>
    rw [Option.some_inj] at h
    cases net with
    | ok r =>
        simp only [networkFirst] at h
        injection h with h1 h2
        subst h1
        simp
    | networkError =>
        cases hc : cacheMatch req.pathname with
        | some c =>
            simp only [networkFirst, hc] at h
            injection h with h1 h2
            subst h1
            simp [hc]
        | none =>
            cases hi : cacheMatch "/index.html" with
            | some f =>
                simp only [networkFirst, hc, hi] at h
                injection h with h1 h2
                subst h1
                simp [hTile, hStatic, hApi]
            | none =>
                simp only [networkFirst, hc, hi] at h
                injection h with h1 h2
                subst h1
                simp [hTile, hStatic, hApi]
  next hMarkup => exact absurd h (by simp)

/-- C3 witness: the characterization applied to the concrete rejecting run
on the static-asset route (/styles.css, network down, empty cache). -/
theorem C3_fetchHandler_rejection_characterization_witness :
    FetchOutcome.rejected = FetchOutcome.rejected ↔
      (NetResult.networkError = NetResult.networkError ∧
        (fun (_ : String) => (none : Option SWResponse)) "/styles.css" = none ∧
        (isMapTileRequest "/styles.css" || isStaticAssetRequest "/styles.css" ||
          isScoreHealthRequest "/styles.css") = true) :=
  C3_fetchHandler_rejection_characterization ⟨"GET", "/styles.css"⟩
    NetResult.networkError (fun _ => none) FetchOutcome.rejected none
    (by decide)

/-- C9: both worker strategies treat any resolved fetch as success,
independent of the HTTP status: the response is written to the runtime cache
and returned (networkFirst always, cacheFirst on a cache miss; a cache hit
returns the cached copy without touching the network result); the cache
fallback of networkFirst fires exactly when fetch rejects, and throws when
nothing is cached. -/
theorem C9_strategies_ignore_http_status (r c : SWResponse)
    (cached : Option SWResponse) :
    networkFirst (NetResult.ok r) cached = (FetchOutcome.response r, some r) ∧
      cacheFirst none (NetResult.ok r) = (FetchOutcome.response r, some r) ∧
      cacheFirst (some c) (NetResult.ok r) = (FetchOutcome.response c, none) ∧
      networkFirst NetResult.networkError (some c)
        = (FetchOutcome.response c, none) ∧
      networkFirst NetResult.networkError none
        = (FetchOutcome.rejected, none) :=
  ⟨rfl, rfl, rfl, rfl, rfl⟩

/- ===== Score cache and key quantization (app.js 603-614) ===== -/

/-- The night_window block of a score payload; the JSON field named end is
modelled as endTime. -/
structure NightWindow where
  start : String
  endTime : String
deriving DecidableEq

/-- The meta block of a score payload, as read by renderScore. -/
structure ScoreMeta where
  health : Option HealthInfo
  used_fallback_pois : Bool
deriving DecidableEq

/-- A scoring result as returned by GET /spot/score and consumed by
renderScore: spot id, score, traffic-light tag, reasons, night window and
the optional meta block. -/
structure ScorePayload where
  spot_id : String
  score : Int
  ampel : String
  reasons : List String
  night_window : NightWindow
  meta : Option ScoreMeta
deriving DecidableEq

/-- One score-cache entry (app.js 637-641): quantized key, ISO fetch time
and the payload, stored verbatim. -/
structure ScoreEntry where
  key : String
  fetchedAt : String
  payload : ScorePayload
deriving DecidableEq

/-- MAX_CACHE_ITEMS (app.js 12). -/
def MAX_CACHE_ITEMS : Nat := 50

/-- ECMA-262 Number.prototype.toFixed with 4 fraction digits, applied to the
exact rational value: the integer n for which n / 10^4 is closest to q, ties
resolved toward the larger n. Every coordinate used below is farther than
10^-5 from a tie, so the binary double rounding in the source cannot change
the selected n. -/
def jsToFixed4 (q : ℚ) : ℤ := ⌊q * 10000 + 1/2⌋

/-- Zero-padding of the four fraction digits of a toFixed(4) string. -/
def pad4 (m : Nat) : String :=
  if m < 10 then "000" ++ toString m
  else if m < 100 then "00" ++ toString m
  else if m < 1000 then "0" ++ toString m
  else toString m

/-- Digit string produced by toFixed(4) from the scaled integer: sign,
integer digits, dot, exactly four fraction digits. -/
def fix4Str (n : ℤ) : String :=
  (if n < 0 then "-" else "") ++ toString (n.natAbs / 10000) ++ "." ++
    pad4 (n.natAbs % 10000)

/-- cacheKey (app.js 603-605): lat.toFixed(4), a colon, lon.toFixed(4). -/
def cacheKey (lat lon : ℚ) : String :=
  fix4Str (jsToFixed4 lat) ++ ":" ++ fix4Str (jsToFixed4 lon)

/-- putScoreCache (app.js 607-610), acting on the scoreCache list: the new
entry goes to the front, every prior entry with the same key is filtered
out, and the list is truncated to MAX_CACHE_ITEMS. -/
def putScoreCache (entry : ScoreEntry) (scoreCache : List ScoreEntry) :
    List ScoreEntry :=
  ((entry :: scoreCache.filter fun it => it.key != entry.key).take
    MAX_CACHE_ITEMS)

/-- findCachedScore (app.js 612-614): Array.prototype.find with exact
equality on the quantized key. -/
def findCachedScore (lat lon : ℚ) (scoreCache : List ScoreEntry) :
    Option ScoreEntry :=
  scoreCache.find? fun it => it.key == cacheKey lat lon

/-- Concrete payload used by the cache scenarios. -/
def samplePayload : ScorePayload :=
  ⟨"spot-1", 72, "yellow", ["ruhige Wohnstrasse"],
    ⟨"2026-02-15T21:00:00Z", "2026-02-16T05:00:00Z"⟩, none⟩

/-- Entry with key "k" followed by the index, used for the capacity run. -/
def mkEntry (i : Nat) : ScoreEntry :=
  ⟨"k" ++ toString i, "2026-02-15T20:00:00Z", samplePayload⟩

/-- The cache produced by inserting 51 entries with distinct keys k0..k50
into the empty cache, in order. -/
def insert51 : List ScoreEntry :=
  (List.range 51).foldl (fun c i => putScoreCache (mkEntry i) c) []

/-- C4: putScoreCache keeps the cache at most 50 long; it preserves key
uniqueness; the inserted entry always lands in the front (most recently
used) slot; any surviving entry carrying the inserted key is the inserted
entry itself (the prior entry with that key is gone); and after 51
distinct-key insertions exactly 50 entries remain and the first-inserted
key k0 is absent. -/
theorem C4_putScoreCache_invariants :
    (∀ (e : ScoreEntry) (c : List ScoreEntry),
        (putScoreCache e c).length ≤ MAX_CACHE_ITEMS) ∧
      (∀ (e : ScoreEntry) (c : List ScoreEntry),
        ((c.map ScoreEntry.key).Nodup) →
          (((putScoreCache e c).map ScoreEntry.key).Nodup)) ∧
      (∀ (e : ScoreEntry) (c : List ScoreEntry),
        (putScoreCache e c).head? = some e) ∧
      (∀ (e : ScoreEntry) (c : List ScoreEntry) (x : ScoreEntry),
        x ∈ putScoreCache e c → x.key = e.key → x = e) ∧
      insert51.length = 50 ∧ "k0" ∉ insert51.map ScoreEntry.key := by
  refine ⟨?_, ?_, ?_, ?_, by decide, by decide⟩
  · intro e c
    exact List.length_take_le MAX_CACHE_ITEMS
      (e :: c.filter fun it => it.key != e.key)
  · intro e c hnd
    have hsub : (putScoreCache e c).Sublist
        (e :: c.filter fun it => it.key != e.key) :=
      List.take_sublist _ _
    have hhead : ((e :: c.filter fun it => it.key != e.key).map
        ScoreEntry.key).Nodup := by
      rw [List.map_cons, List.nodup_cons]
      constructor
      · intro hmem
        obtain ⟨x, hx, hxe⟩ := List.mem_map.1 hmem
        have hpred := (List.mem_filter.1 hx).2
        rw [hxe] at hpred
        simp at hpred
      · exact (((List.filter_sublist c).map ScoreEntry.key).nodup hnd)
    exact hhead.sublist (hsub.map ScoreEntry.key)
  · intro e c
    rfl
  · intro e c x hx hkey
    have hx2 : x ∈ e :: c.filter fun it => it.key != e.key :=
      (List.take_sublist _ _).subset hx
    rcases List.mem_cons.1 hx2 with h | h
    · exact h
    · have hpred := (List.mem_filter.1 h).2
      rw [hkey] at hpred
      simp at hpred

/-- C4 witness: the conditional parts of the invariant theorem applied at
concrete inputs - key uniqueness is preserved when inserting k0 next to k1,
and the surviving carrier of an inserted key is the inserted entry. -/
theorem C4_putScoreCache_invariants_witness :
    ((putScoreCache (mkEntry 0) [mkEntry 1]).map ScoreEntry.key).Nodup ∧
      mkEntry 0 = mkEntry 0 := by
  constructor
  · exact C4_putScoreCache_invariants.2.1 (mkEntry 0) [mkEntry 1] (by decide)
  · exact C4_putScoreCache_invariants.2.2.2.1 (mkEntry 0) [mkEntry 0]
      (mkEntry 0) (by decide) rfl

/-- C5: the pairs (51.25001, 6.97299) and (51.25004, 6.97301) quantize to
the same cache key, so findCachedScore answers identically for them on every
cache, while (51.2510, 6.9730) quantizes to a different key and misses an
entry stored under the shared key. -/
theorem C5_cacheKey_quantization :
    cacheKey (51.25001 : ℚ) (6.97299 : ℚ)
        = cacheKey (51.25004 : ℚ) (6.97301 : ℚ) ∧
      (∀ cache : List ScoreEntry,
        findCachedScore (51.25001 : ℚ) (6.97299 : ℚ) cache
          = findCachedScore (51.25004 : ℚ) (6.97301 : ℚ) cache) ∧
      cacheKey (51.2510 : ℚ) (6.9730 : ℚ)
        ≠ cacheKey (51.25001 : ℚ) (6.97299 : ℚ) ∧
      findCachedScore (51.2510 : ℚ) (6.9730 : ℚ)
          [⟨cacheKey (51.25001 : ℚ) (6.97299 : ℚ), "2026-02-15T20:00:00Z",
            samplePayload⟩]
        = none := by
  have ha : jsToFixed4 (51.25001 : ℚ) = 512500 := by
    unfold jsToFixed4; norm_num [Int.floor_eq_iff]
  have hb : jsToFixed4 (6.97299 : ℚ) = 69730 := by
    unfold jsToFixed4; norm_num [Int.floor_eq_iff]
  have hc : jsToFixed4 (51.25004 : ℚ) = 512500 := by
    unfold jsToFixed4; norm_num [Int.floor_eq_iff]
  have hd : jsToFixed4 (6.97301 : ℚ) = 69730 := by
    unfold jsToFixed4; norm_num [Int.floor_eq_iff]
  have he : jsToFixed4 (51.2510 : ℚ) = 512510 := by
    unfold jsToFixed4; norm_num [Int.floor_eq_iff]
  have hf : jsToFixed4 (6.9730 : ℚ) = 69730 := by
    unfold jsToFixed4; norm_num [Int.floor_eq_iff]
  have hkey1 : cacheKey (51.25001 : ℚ) (6.97299 : ℚ) = "51.2500:6.9730" := by
    rw [cacheKey, ha, hb]; decide
  have hkey2 : cacheKey (51.25004 : ℚ) (6.97301 : ℚ) = "51.2500:6.9730" := by
    rw [cacheKey, hc, hd]; decide
  have hkey3 : cacheKey (51.2510 : ℚ) (6.9730 : ℚ) = "51.2510:6.9730" := by
    rw [cacheKey, he, hf]; decide
  refine ⟨hkey1.trans hkey2.symm, ?_, ?_, ?_⟩
  · intro cache
    unfold findCachedScore
    rw [hkey1, hkey2]
  · rw [hkey1, hkey3]; decide
  · unfold findCachedScore
    rw [hkey1, hkey3]
    decide

/- ===== Cache state operations (app.js 63, 607-614) ===== -/

/-- The page state relevant to the score cache: the module variable
scoreCache (app.js 63) and the JSON list persisted under
staysense.score_cache.v1. -/
structure ScoreCacheState where
  scoreCache : List ScoreEntry
  storedScoreCache : List ScoreEntry
deriving DecidableEq

/-- putScoreCache as a state operation (app.js 607-610): the module variable
is reassigned and saveJSON persists the same list. -/
def putScoreCacheOp (entry : ScoreEntry) (st : ScoreCacheState) :
    ScoreCacheState :=
  let c := putScoreCache entry st.scoreCache
  ⟨c, c⟩

/-- findCachedScore as a state operation (app.js 612-614): a single
Array.prototype.find over the module variable; the function body contains no
assignment and no saveJSON call, so the state it returns is the state it was
given. -/
def findCachedScoreOp (lat lon : ℚ) (st : ScoreCacheState) :
    Option ScoreEntry × ScoreCacheState :=
  (findCachedScore lat lon st.scoreCache, st)

/-- C10: findCachedScore is read-only - for every cache state and coordinate
pair the lookup leaves the in-memory list, its order, and the persisted copy
unchanged, and its answer is exactly the pure lookup on the in-memory list;
so a cache hit does not move the hit entry toward the front, and recency
order changes only through the putScoreCache write path. -/
theorem C10_findCachedScore_readonly (lat lon : ℚ) (st : ScoreCacheState) :
    (findCachedScoreOp lat lon st).2 = st ∧
      (findCachedScoreOp lat lon st).2.scoreCache = st.scoreCache ∧
      (findCachedScoreOp lat lon st).2.storedScoreCache
        = st.storedScoreCache ∧
      (findCachedScoreOp lat lon st).1
        = findCachedScore lat lon st.scoreCache :=
  ⟨rfl, rfl, rfl, rfl⟩

/- ===== Score retrieval with cache fallback (app.js 616-686) ===== -/

/-- toLocal (app.js 770-776): an empty (falsy) ISO string renders as a dash;
otherwise the browser locale formatter - passed in as fmt, since
Date.toLocaleString is environment-defined - renders the timestamp. -/
def toLocal (fmt : String → String) (iso : String) : String :=
  if iso = "" then "-" else fmt iso

/-- The DOM fields written by renderScore (app.js 655-686). -/
structure RenderView where
  scoreText : String
  ampelClass : String
  ampelText : String
  nightWindowText : String
  reasonsList : List String
  dataStatusText : String
  signalStatusText : String
deriving DecidableEq

/-- The data-status line of renderScore (app.js 671-679): meta.health with
has_data renders the freshness summary, the optional stale-source list and
the fallback-POI marker; a missing meta block, missing health block or
has_data false renders the no-metadata line. -/
def renderScoreDataStatus (data : ScorePayload) : String :=
  match data.meta with
  | some m =>
      match m.health with
      | some h =>
          if h.has_data then
            "Datenstand: freshest " ++ toString h.freshest_age_hours ++
              "h, stalest " ++ toString h.stalest_age_hours ++ "h" ++
              (if h.stale_sources.isEmpty then ""
               else ", stale: " ++ String.intercalate ", " h.stale_sources) ++
              (if m.used_fallback_pois then ", Fallback-POI aktiv" else "")
          else "Datenstand: keine Quellenmetadaten"
      | none => "Datenstand: keine Quellenmetadaten"
  | none => "Datenstand: keine Quellenmetadaten"

/-- renderScore (app.js 655-686): renders score, traffic light, night
window, reasons and data status; the signal-status line discloses the
provenance - the cache marker with the formatted cache time when fromCache
is set, the live marker otherwise. -/
def renderScore (fmt : String → String) (data : ScorePayload)
    (fromCache : Bool) (cacheTime : String) : RenderView :=
  { scoreText := toString data.score
    ampelClass := data.ampel
    ampelText :=
      if data.ampel == "green" then "Grün"
      else if data.ampel == "yellow" then "Gelb" else "Rot"
    nightWindowText :=
      "Bezug: " ++ toLocal fmt data.night_window.start ++ " bis " ++
        toLocal fmt data.night_window.endTime
    reasonsList := data.reasons
    dataStatusText := renderScoreDataStatus data
    signalStatusText :=
      if fromCache then
        "Cache verwendet (Stand: " ++ toLocal fmt cacheTime ++ ")."
      else "Live-Score erfolgreich geladen." }

/-- Outcome of the score fetch in loadScore (app.js 628-633): a 2xx response
with the parsed payload, or the catch block is reached - by fetch throwing
or by the non-2xx api_error throw; both failure kinds land in the same
catch. -/
inductive FetchScoreResult where
  | ok (payload : ScorePayload)
  | failed
deriving DecidableEq

/-- The rendering decision loadScore takes, recorded as the renderScore
invocation it performs (payload, fromCache flag, cacheTime argument), or the
no-data status line when neither a live response nor a cache entry exists. -/
inductive LoadOutcome where
  | rendered (data : ScorePayload) (fromCache : Bool) (cacheTime : String)
  | noData (message : String)
deriving DecidableEq

/-- The no-data status line of loadScore (app.js 648). -/
def noDataMessage : String :=
  "Kein Live-Score und kein Cache für diesen Spot vorhanden."

/-- loadScore (app.js 616-653), for finite coordinates: on success it calls
renderScore(payload, false) and writes the entry into the cache under the
quantized key with the fetch time; on failure it looks the quantized key up
in the cache and either calls renderScore(cached.payload, true,
cached.fetchedAt) or reports the no-data line; the cache is written only on
the success path. -/
def loadScore (lat lon : ℚ) (now : String) (result : FetchScoreResult)
    (scoreCache : List ScoreEntry) : LoadOutcome × List ScoreEntry :=
  match result with
  | FetchScoreResult.ok payload =>
      (LoadOutcome.rendered payload false "",
        putScoreCache ⟨cacheKey lat lon, now, payload⟩ scoreCache)
  | FetchScoreResult.failed =>
      match findCachedScore lat lon scoreCache with
      | some cached =>
          (LoadOutcome.rendered cached.payload true cached.fetchedAt,
            scoreCache)
      | none => (LoadOutcome.noData noDataMessage, scoreCache)

/-- C7: when the live fetch fails and the cache holds an entry for the
quantized key, loadScore renders the cached payload tagged fromCache with
the original fetchedAt, and the rendered status line discloses the cache
provenance with that timestamp; with no matching entry it reports the
explicit no-data line; and every render not tagged fromCache comes from a
successful live fetch of the rendered payload - a score is never shown
without disclosing cache provenance. -/
theorem C7_loadScore_fallback_disclosure (lat lon : ℚ) (now : String)
    (cache : List ScoreEntry) (fmt : String → String) :
    (∀ c, findCachedScore lat lon cache = some c →
        (loadScore lat lon now FetchScoreResult.failed cache).1
            = LoadOutcome.rendered c.payload true c.fetchedAt ∧
          (renderScore fmt c.payload true c.fetchedAt).signalStatusText
            = "Cache verwendet (Stand: " ++ toLocal fmt c.fetchedAt ++ ").") ∧
      (findCachedScore lat lon cache = none →
        (loadScore lat lon now FetchScoreResult.failed cache).1
          = LoadOutcome.noData noDataMessage) ∧
      (∀ d b t rest,
        loadScore lat lon now FetchScoreResult.failed cache
            = (LoadOutcome.rendered d b t, rest) → b = true) ∧
      (∀ r d b t rest,
        loadScore lat lon now r cache = (LoadOutcome.rendered d b t, rest) →
          b = false →
          r = FetchScoreResult.ok d ∧
            (renderScore fmt d b t).signalStatusText
              = "Live-Score erfolgreich geladen.") := by
  refine ⟨?_, ?_, ?_, ?_⟩
  · intro c hfind
    rw [loadScore, hfind]
    exact ⟨rfl, rfl⟩
  · intro hfind
    rw [loadScore, hfind]
  · intro d b t rest h
    rw [loadScore] at h
    cases hfind : findCachedScore lat lon cache with
    | some c =>
        rw [hfind] at h
        injection h with h1 h2
        injection h1 with hd hb ht
        exact hb.symm
    | none =>
        rw [hfind] at h
        injection h with h1 h2
        exact absurd h1 (by simp)
  · intro r d b t rest h hb
    cases r with
    | ok payload =>
        rw [loadScore] at h
        injection h with h1 h2
        injection h1 with hd hb2 ht
        subst hd
        subst hb
        exact ⟨rfl, rfl⟩
    | failed =>
        rw [loadScore] at h
        cases hfind : findCachedScore lat lon cache with
        | some c =>
            rw [hfind] at h
            injection h with h1 h2
            injection h1 with hd hb2 ht
            rw [hb] at hb2
            exact absurd hb2 (by simp)
        | none =>
            rw [hfind] at h
            injection h with h1 h2
            exact absurd h1 (by simp)

/-- C7 witness: the fallback branch of the disclosure theorem evaluated on a
one-entry cache whose key is the quantized key of the request, with the
identity locale formatter. -/
theorem C7_loadScore_fallback_disclosure_witness :
    (loadScore (51.25001 : ℚ) (6.97299 : ℚ) "2026-02-16T20:00:00Z"
          FetchScoreResult.failed
          [⟨cacheKey (51.25001 : ℚ) (6.97299 : ℚ), "2026-02-15T20:00:00Z",
            samplePayload⟩]).1
        = LoadOutcome.rendered samplePayload true "2026-02-15T20:00:00Z" ∧
      (renderScore (fun s => s) samplePayload true
            "2026-02-15T20:00:00Z").signalStatusText
        = "Cache verwendet (Stand: " ++
            toLocal (fun s => s) "2026-02-15T20:00:00Z" ++ ")." :=
  (C7_loadScore_fallback_disclosure (51.25001 : ℚ) (6.97299 : ℚ)
      "2026-02-16T20:00:00Z"
      [⟨cacheKey (51.25001 : ℚ) (6.97299 : ℚ), "2026-02-15T20:00:00Z",
        samplePayload⟩] (fun s => s)).1
    ⟨cacheKey (51.25001 : ℚ) (6.97299 : ℚ), "2026-02-15T20:00:00Z",
      samplePayload⟩
    (by simp [findCachedScore])
